import Mathlib

/-!
Verification development for the deep-research backend.

The definitions below are shallow embeddings of the Python source:
`TokenTracker`, `ResearchService` (`start_research`, `_execute_research`,
`_build_parent_context`, `_parse_summary_response`) from
`src/research/services.py`, the session model from `src/research/models.py`,
`ContinueResearchSerializer.validate_previous_research_id` from
`src/research/serializers.py`, and the LangGraph-variant `continue_research`
view from `src/research/views.py`.  Strings are modelled as Lean strings
(lists of characters); Python `str` slicing `s[:n]` is `pyTakeS n s`.
-/

namespace DeepResearch

/-! ### Python string primitives

`pyIsSpace` models the character class matched by Python's regex `\s` and by
`str.strip()` / `str.isspace()` on text strings: ASCII whitespace, the C1
whitespace controls, and the Unicode space separators. -/

def pyIsSpace (c : Char) : Bool :=
  c == ' ' || c == '\t' || c == '\n' || c == '\r' ||
  c.toNat == 11 || c.toNat == 12 ||
  (decide (28 ≤ c.toNat) && decide (c.toNat ≤ 31)) ||
  c.toNat == 133 || c.toNat == 160 || c.toNat == 0x1680 ||
  (decide (0x2000 ≤ c.toNat) && decide (c.toNat ≤ 0x200A)) ||
  c.toNat == 0x2028 || c.toNat == 0x2029 || c.toNat == 0x202F ||
  c.toNat == 0x205F || c.toNat == 0x3000

/-- Python `str.strip()` on a list of characters. -/
def pyStripL (s : List Char) : List Char :=
  ((s.dropWhile pyIsSpace).reverse.dropWhile pyIsSpace).reverse

/-- `startsWithL pat s` holds when `pat` is an initial run of `s`. -/
def startsWithL : List Char → List Char → Bool
  | [], _ => true
  | _ :: _, [] => false
  | p :: ps, c :: cs => p == c && startsWithL ps cs

/-- Index of the first occurrence of `pat` inside a list, scanning left to
right exactly as `re.search` scans candidate start positions. -/
def occIdx (pat : List Char) : List Char → Option Nat
  | [] => if pat.isEmpty then some 0 else none
  | c :: t => if startsWithL pat (c :: t) then some 0 else (occIdx pat t).map (· + 1)

/-- Python slicing `s[:n]`. -/
def pyTakeS (n : Nat) (s : String) : String := String.mk (s.toList.take n)

def smLabel : List Char := ("SUMMARY:").toList
def kfLabel : List Char := ("KEY_FINDINGS:").toList
def srcLabel : List Char := ("SOURCES:").toList

/-! ### The summary regex

`re.search(r'SUMMARY:\s*(.+?)(?=KEY_FINDINGS:|$)', response, re.DOTALL)`:
after the literal label and a greedy run of whitespace, the non-greedy `(.+?)`
takes at least one character and stops at the first position where either the
literal `KEY_FINDINGS:` follows or `$` matches (end of string, or just before
a single trailing newline, since `re.MULTILINE` is off). -/

/-- Lookahead `(?=KEY_FINDINGS:|$)` evaluated on the remaining suffix. -/
def summaryLook (s : List Char) : Bool :=
  startsWithL kfLabel s || s == ['\n']

/-- Characters consumed by `(.+?)` after its mandatory first character:
extend minimally until the lookahead holds on the rest of the input. -/
def grpAux : List Char → List Char
  | [] => []
  | c :: t => if summaryLook (c :: t) then [] else c :: grpAux t

/-- Group 1 of the SUMMARY regex, `none` when the regex does not match.
When everything after the label is whitespace the greedy `\s*` backtracks by
one character so that `(.+?)` can take the final character. -/
def summaryGroup (s : List Char) : Option (List Char) :=
  match occIdx smLabel s with
  | none => none
  | some i =>
    let rest := s.drop (i + smLabel.length)
    match rest.dropWhile pyIsSpace with
    | c :: t => some (c :: grpAux t)
    | [] =>
      match rest.reverse with
      | [] => none
      | c :: _ => some [c]

/-! ### The list-section regexes

`re.search(r'LABEL:\s*(\[.+?\])', response, re.DOTALL)`: at each occurrence of
the label, skip whitespace (backtracking cannot help: `[` is not whitespace),
require `[`, then the non-greedy `.+?` ends at the first `]` that leaves at
least one character inside the brackets.  If an occurrence cannot complete the
match the scan resumes at the next position. -/

/-- Inner characters of `\[.+?\]` starting right after the `[`: one mandatory
character, then everything up to (excluding) the first `]` in the remainder;
`none` when no closing `]` exists. -/
def bracketTake : List Char → Option (List Char)
  | [] => none
  | x :: rest =>
    if rest.contains ']' then some (x :: rest.takeWhile (fun c => c != ']'))
    else none

/-- Group 1 of a list-section regex (brackets included), `none` when the
regex does not match anywhere. -/
def listGroup (label : List Char) : List Char → Option (List Char)
  | [] => none
  | c :: t =>
    if startsWithL label (c :: t) then
      match ((c :: t).drop label.length).dropWhile pyIsSpace with
      | '[' :: u =>
        match bracketTake u with
        | some inner => some ('[' :: (inner ++ [']']))
        | none => listGroup label t
      | _ => listGroup label t
    else listGroup label t

/-! ### JSON values and `json.loads`

`Json` mirrors the values Python's `json.loads` can produce.  Numbers keep
their source lexeme (their numeric value is never inspected by the program),
and strings are sequences of Unicode code points exactly as in Python (a lone
surrogate escape stays a lone surrogate). -/

inductive Json where
  | jnull : Json
  | jbool : Bool → Json
  | jnum : List Char → Json
  | jstr : List Nat → Json
  | jarr : List Json → Json
  | jobj : List (List Nat × Json) → Json

/-- The `Json` string holding the code points of a Lean string. -/
def jstrOf (s : String) : Json := Json.jstr (s.toList.map Char.toNat)

def Json.isStr : Json → Bool
  | .jstr _ => true
  | _ => false

/-- JSON inter-token whitespace (as in Python's `json` module). -/
def jsonSpace (c : Char) : Bool := c == ' ' || c == '\t' || c == '\n' || c == '\r'

def jWs (s : List Char) : List Char := s.dropWhile jsonSpace

def hexVal (c : Char) : Option Nat :=
  if c.isDigit then some (c.toNat - 48)
  else if decide (97 ≤ c.toNat) && decide (c.toNat ≤ 102) then some (c.toNat - 87)
  else if decide (65 ≤ c.toNat) && decide (c.toNat ≤ 70) then some (c.toNat - 55)
  else none

def hex4 : List Char → Option (Nat × List Char)
  | a :: b :: c :: d :: rest =>
    match hexVal a, hexVal b, hexVal c, hexVal d with
    | some x, some y, some z, some w => some (((x * 16 + y) * 16 + z) * 16 + w, rest)
    | _, _, _, _ => none
  | _ => none

/-- Body of a JSON string literal (after the opening quote): returns the
decoded code points and the input after the closing quote.  Raw control
characters are rejected (`strict=True`), escapes follow `json`'s scanner
including surrogate-pair combination. -/
def lexStr : Nat → List Char → Option (List Nat × List Char)
  | 0, _ => none
  | _ + 1, [] => none
  | fuel + 1, c :: t =>
    if c == '"' then some ([], t)
    else if decide (c.toNat < 32) then none
    else if c == '\\' then
      match t with
      | [] => none
      | e :: t2 =>
        if e == '"' then (lexStr fuel t2).map (fun r => (34 :: r.1, r.2))
        else if e == '\\' then (lexStr fuel t2).map (fun r => (92 :: r.1, r.2))
        else if e == '/' then (lexStr fuel t2).map (fun r => (47 :: r.1, r.2))
        else if e == 'b' then (lexStr fuel t2).map (fun r => (8 :: r.1, r.2))
        else if e == 'f' then (lexStr fuel t2).map (fun r => (12 :: r.1, r.2))
        else if e == 'n' then (lexStr fuel t2).map (fun r => (10 :: r.1, r.2))
        else if e == 'r' then (lexStr fuel t2).map (fun r => (13 :: r.1, r.2))
        else if e == 't' then (lexStr fuel t2).map (fun r => (9 :: r.1, r.2))
        else if e == 'u' then
          match hex4 t2 with
          | none => none
          | some (n, t3) =>
            if decide (0xD800 ≤ n) && decide (n ≤ 0xDBFF) then
              match t3 with
              | '\\' :: 'u' :: t4 =>
                match hex4 t4 with
                | some (m, t5) =>
                  if decide (0xDC00 ≤ m) && decide (m ≤ 0xDFFF) then
                    (lexStr fuel t5).map
                      (fun r => ((0x10000 + (n - 0xD800) * 1024 + (m - 0xDC00)) :: r.1, r.2))
                  else (lexStr fuel t3).map (fun r => (n :: r.1, r.2))
                | none => (lexStr fuel t3).map (fun r => (n :: r.1, r.2))
              | _ => (lexStr fuel t3).map (fun r => (n :: r.1, r.2))
            else (lexStr fuel t3).map (fun r => (n :: r.1, r.2))
        else none
    else (lexStr fuel t).map (fun r => (c.toNat :: r.1, r.2))

/-- Integer part of the JSON number grammar: `0` alone, or a nonzero digit
followed by digits (leading zeros are not absorbed). -/
def lexUnsigned (s : List Char) : Option (List Char × List Char) :=
  match s with
  | '0' :: rest => some (['0'], rest)
  | c :: _ =>
    if c.isDigit then some (s.takeWhile Char.isDigit, s.dropWhile Char.isDigit)
    else none
  | [] => none

/-- Optional fraction `(\.\d+)?`; consumes nothing when absent or malformed. -/
def lexFrac (s : List Char) : List Char × List Char :=
  match s with
  | '.' :: rest =>
    let d := rest.takeWhile Char.isDigit
    if d.isEmpty then ([], s) else ('.' :: d, rest.dropWhile Char.isDigit)
  | _ => ([], s)

/-- Optional exponent `([eE][-+]?\d+)?`; consumes nothing when malformed. -/
def lexExp (s : List Char) : List Char × List Char :=
  match s with
  | e :: rest =>
    if e == 'e' || e == 'E' then
      match rest with
      | sgn :: rest2 =>
        if sgn == '+' || sgn == '-' then
          let d := rest2.takeWhile Char.isDigit
          if d.isEmpty then ([], s) else (e :: sgn :: d, rest2.dropWhile Char.isDigit)
        else
          let d := rest.takeWhile Char.isDigit
          if d.isEmpty then ([], s) else (e :: d, rest.dropWhile Char.isDigit)
      | [] => ([], s)
    else ([], s)
  | [] => ([], s)

/-- The maximal match of `json`'s number regex at the head of the input. -/
def lexNum (s : List Char) : Option (List Char × List Char) :=
  match s with
  | '-' :: rest =>
    match lexUnsigned rest with
    | some (i, r1) =>
      let (f, r2) := lexFrac r1
      let (ex, r3) := lexExp r2
      some ('-' :: (i ++ f ++ ex), r3)
    | none => none
  | _ =>
    match lexUnsigned s with
    | some (i, r1) =>
      let (f, r2) := lexFrac r1
      let (ex, r3) := lexExp r2
      some (i ++ f ++ ex, r3)
    | none => none

mutual

/-- One JSON value at the head of the input (whitespace already skipped by the
caller), as dispatched by `json.scanner`. -/
def parseVal : Nat → List Char → Option (Json × List Char)
  | 0, _ => none
  | _ + 1, [] => none
  | fuel + 1, s =>
    match s with
    | '"' :: t => (lexStr (t.length + 1) t).map (fun r => (Json.jstr r.1, r.2))
    | '{' :: t => parseObj fuel t
    | '[' :: t => parseArr fuel t
    | 'n' :: _ => if startsWithL ("null").toList s then some (Json.jnull, s.drop 4) else none
    | 't' :: _ => if startsWithL ("true").toList s then some (Json.jbool true, s.drop 4) else none
    | 'f' :: _ => if startsWithL ("false").toList s then some (Json.jbool false, s.drop 5) else none
    | 'N' :: _ =>
      if startsWithL ("NaN").toList s then some (Json.jnum ("NaN").toList, s.drop 3) else none
    | 'I' :: _ =>
      if startsWithL ("Infinity").toList s then some (Json.jnum ("Infinity").toList, s.drop 8)
      else none
    | '-' :: 'I' :: _ =>
      if startsWithL ("-Infinity").toList s then some (Json.jnum ("-Infinity").toList, s.drop 9)
      else none
    | _ => (lexNum s).map (fun r => (Json.jnum r.1, r.2))

/-- Array body after the opening `[`. -/
def parseArr : Nat → List Char → Option (Json × List Char)
  | 0, _ => none
  | fuel + 1, s =>
    match jWs s with
    | ']' :: r => some (Json.jarr [], r)
    | s1 => parseElems fuel s1 []

/-- Comma-separated array elements, accumulating left to right. -/
def parseElems : Nat → List Char → List Json → Option (Json × List Char)
  | 0, _, _ => none
  | fuel + 1, s, acc =>
    match parseVal fuel s with
    | none => none
    | some (v, r) =>
      match jWs r with
      | ']' :: r2 => some (Json.jarr (acc ++ [v]), r2)
      | ',' :: r2 => parseElems fuel (jWs r2) (acc ++ [v])
      | _ => none

/-- Object body after the opening `{`. -/
def parseObj : Nat → List Char → Option (Json × List Char)
  | 0, _ => none
  | fuel + 1, s =>
    match jWs s with
    | '}' :: r => some (Json.jobj [], r)
    | s1 => parseMembers fuel s1 []

/-- Comma-separated `"key": value` members. -/
def parseMembers : Nat → List Char → List (List Nat × Json) → Option (Json × List Char)
  | 0, _, _ => none
  | fuel + 1, s, acc =>
    match s with
    | '"' :: t =>
      match lexStr (t.length + 1) t with
      | none => none
      | some (k, r) =>
        match jWs r with
        | ':' :: r2 =>
          match parseVal fuel (jWs r2) with
          | none => none
          | some (v, r3) =>
            match jWs r3 with
            | '}' :: r4 => some (Json.jobj (acc ++ [(k, v)]), r4)
            | ',' :: r4 => parseMembers fuel (jWs r4) (acc ++ [(k, v)])
            | _ => none
        | _ => none
    | _ => none

end

/-- `json.loads` on a list of characters: one document, with leading and
trailing whitespace allowed, `none` on any `JSONDecodeError`. -/
def jsonLoads (g : List Char) : Option Json :=
  match parseVal (g.length + 1) (jWs g) with
  | some (v, r) => if (jWs r).isEmpty then some v else none
  | none => none

/-! ### `ResearchService._parse_summary_response` -/

def findingsGroup (s : List Char) : Option (List Char) := listGroup kfLabel s

def sourcesGroup (s : List Char) : Option (List Char) := listGroup srcLabel s

/-- Whether a matched list section raises `json.JSONDecodeError` when decoded
(`false` when the section's regex did not match at all). -/
def jsonFailsAt : Option (List Char) → Bool
  | some g => (jsonLoads g).isNone
  | none => false

/-- Elements of a decoded JSON array (the decoded group always starts with
`[`, so a successful decode is always an array). -/
def jarrElems : Json → List Json
  | .jarr xs => xs
  | _ => []

/-- The `except (json.JSONDecodeError, AttributeError)` fallback triple. -/
def fallbackSummary (r : String) : String × List Json × List Json :=
  (pyTakeS 500 r,
   [jstrOf ("Research completed successfully")],
   [jstrOf ("AI-synthesized research")])

/-- The summary component: group 1 of the SUMMARY regex, stripped, or the
initializer `""` when the regex does not match. -/
def summaryComponent (s : List Char) : String :=
  match summaryGroup s with
  | some g => String.mk (pyStripL g)
  | none => ("")

/-- `ResearchService._parse_summary_response`.  The three extractions run in
order inside one `try`; an exception can only come from `json.loads` on a
matched list section, and it sends the whole call to the fallback triple.  A
regex that simply does not match leaves the corresponding initializer
(`""` / `[]` / `[]`) in place. -/
def parseSummaryResponse (response : String) : String × List Json × List Json :=
  let s := response.toList
  let sm := summaryComponent s
  match findingsGroup s with
  | some g1 =>
    match jsonLoads g1 with
    | none => fallbackSummary response
    | some v1 =>
      match sourcesGroup s with
      | some g2 =>
        match jsonLoads g2 with
        | none => fallbackSummary response
        | some v2 => (sm, jarrElems v1, jarrElems v2)
      | none => (sm, jarrElems v1, [])
  | none =>
    match sourcesGroup s with
    | some g2 =>
      match jsonLoads g2 with
      | none => fallbackSummary response
      | some v2 => (sm, [], jarrElems v2)
    | none => (sm, [], [])

/-! ### `TokenTracker` (services.py 34-82)

Costs are modelled over `ℚ`; the pricing constants `0.15`, `0.60`, `2.50`,
`10.00`, `30.00`, `60.00` become the exact rationals they denote. -/

def PRICING : List (String × ℚ × ℚ) :=
  [(("gpt-4o-mini"), ((15 : ℚ) / 100, (60 : ℚ) / 100)),
   (("gpt-4o"), ((250 : ℚ) / 100, (1000 : ℚ) / 100)),
   (("gpt-4"), ((3000 : ℚ) / 100, (6000 : ℚ) / 100))]

/-- `self.PRICING.get(self.model, self.PRICING['gpt-4o-mini'])`. -/
def pricingFor (m : String) : ℚ × ℚ :=
  match PRICING.lookup m with
  | some p => p
  | none =>
    match PRICING.lookup ("gpt-4o-mini") with
    | some p => p
    | none => (0, 0)

structure TokenTracker where
  model : String
  inputTokens : Nat
  outputTokens : Nat

def mkTracker (m : String) : TokenTracker := ⟨m, 0, 0⟩

/-- A recorded text, via `add_input` or `add_output`. -/
inductive TokEvent where
  | input : String → TokEvent
  | output : String → TokEvent

/-- `add_input` / `add_output`, with the tokenizer abstracted as an arbitrary
counting function `enc` (`count_tokens` returns a list length, hence a `Nat`). -/
def applyTokEvent (enc : String → Nat) (t : TokenTracker) : TokEvent → TokenTracker
  | .input s => { t with inputTokens := t.inputTokens + enc s }
  | .output s => { t with outputTokens := t.outputTokens + enc s }

def applyTokEvents (enc : String → Nat) (t : TokenTracker) (evs : List TokEvent) : TokenTracker :=
  evs.foldl (applyTokEvent enc) t

/-- `TokenTracker.get_cost`. -/
def TokenTracker.getCost (t : TokenTracker) : ℚ :=
  let pricing := pricingFor t.model
  (t.inputTokens : ℚ) / 1000000 * pricing.1 + (t.outputTokens : ℚ) / 1000000 * pricing.2

/-- Modelled from the spec: the pricing selection as §4.1 words it — the named
model's pricing row, falling back to the default model's (`gpt-4o-mini`) row
when the requested model is unknown.  Stated independently of the code's
`dict.get` so that the code's selection can be compared against it. -/
def pricingSpec (m : String) : ℚ × ℚ :=
  if m = ("gpt-4o-mini") then ((15 : ℚ) / 100, (60 : ℚ) / 100)
  else if m = ("gpt-4o") then ((250 : ℚ) / 100, (1000 : ℚ) / 100)
  else if m = ("gpt-4") then ((3000 : ℚ) / 100, (6000 : ℚ) / 100)
  else ((15 : ℚ) / 100, (60 : ℚ) / 100)

/-! ### `ResearchService._build_parent_context` (services.py 201-226) -/

/-- The parent's related `ResearchSummary`, when one exists.
`keyFindingsRepr` carries `str(summary.key_findings)` as rendered by the
f-string (its exact shape is irrelevant to every claim). -/
structure ParentSummary where
  summaryText : String
  keyFindingsRepr : String

structure ParentSession where
  query : String
  summary : Option ParentSummary
  finalReport : Option String

/-- Python falsiness of a string (`""` is falsy). -/
def pyFalsy (s : String) : Bool := s.toList.isEmpty

/-- Python truthiness of an optional text field (`None` and `""` are falsy). -/
def strTruthy : Option String → Bool
  | some s => !pyFalsy s
  | none => false

/-- Python `"\n".join(parts)`. -/
def joinNl : List String → String
  | [] => ("")
  | [a] => a
  | a :: b :: t => a ++ ("\n") ++ joinNl (b :: t)

def buildParentContext (p : ParentSession) : String :=
  let parts : List String :=
    [("=== PREVIOUS RESEARCH CONTEXT ==="), ("Previous Query: ") ++ p.query]
  let parts := match p.summary with
    | some sm =>
      parts ++ [("\nPrevious Summary:\n") ++ sm.summaryText,
                ("\nPrevious Key Findings:\n") ++ sm.keyFindingsRepr]
    | none => parts
  let parts := match p.finalReport with
    | some r =>
      if pyFalsy r then parts
      else parts ++ [("\nPrevious Report Excerpt:\n") ++ pyTakeS 2000 r]
    | none => parts
  let parts := parts ++
    [("\n=== END PREVIOUS CONTEXT ===\n"),
     ("BUILD UPON this previous research. Do NOT repeat what was already covered.")]
  joinNl parts

/-- Substring occurrence test (used to state what a built context contains). -/
def hasSub (pat s : String) : Bool := (occIdx pat.toList s.toList).isSome

/-- The occurrence of `pat` inside `s` stated structurally: some split of the
character data of `s` exhibits the character data of `pat` contiguously. -/
def containsStr (s pat : String) : Prop :=
  ∃ x y : List Char, s.toList = x ++ pat.toList ++ y

/-! ### `ResearchService._execute_research` (services.py 115-199)

The persistence collaborator is assumed reliable (spec §5: "the persistence
store's transactional guarantees are assumed"), and the session row is created
`pending` together with its zeroed `ResearchCost` row (models.py defaults; the
creating view sits in the variant whose view module is not in the source
tree).  The fallible operations are the four LLM invocations of
`_run_research_pipeline`; each either returns its text or raises. -/

inductive Status where
  | pending
  | running
  | completed
  | failed
deriving DecidableEq

structure SummaryRec where
  summaryText : String
  keyFindings : List Json
  sources : List Json

structure ReasoningRec where
  queryPlan : String
  searchStrategy : String
  sourceSelection : String
  synthesisApproach : String
  steps : List String

structure CostRec where
  inputTokens : Nat
  outputTokens : Nat
  totalTokens : Nat
  estimatedCost : ℚ
  modelUsed : String

/-- The session row fields `_execute_research` touches. -/
structure SessionRow where
  status : Status
  traceId : Option String
  finalReport : Option String
  completedAt : Bool

/-- One session together with its owned records, as a reader sees them. -/
structure SessionDb where
  row : SessionRow
  summary : Option SummaryRec
  reasoning : Option ReasoningRec
  cost : CostRec

def zeroCost : CostRec := ⟨0, 0, 0, 0, ("gpt-4o-mini")⟩

/-- A freshly created session: `status` defaults to `pending`, no report, no
summary/reasoning rows, zeroed cost row. -/
def newSessionDb : SessionDb := ⟨⟨Status.pending, none, none, false⟩, none, none, zeroCost⟩

/-- Outcome of `_run_research_pipeline`: the four stage outputs, or the first
stage exception. -/
inductive RunResult where
  | success (queryPlan findings report summaryRaw : String)
  | failure (msg : String)

/-- The four-stage pipeline over the four LLM invocation results, in source
order (plan, research, report, summarize); the first raising stage aborts. -/
def runPipeline (r1 r2 r3 r4 : Except String String) : RunResult :=
  match r1 with
  | .error e => .failure e
  | .ok plan =>
    match r2 with
    | .error e => .failure e
    | .ok findings =>
      match r3 with
      | .error e => .failure e
      | .ok report =>
        match r4 with
        | .error e => .failure e
        | .ok raw => .success plan findings report raw

/-- One store write issued by `_execute_research`.  A `saveRow` is one
`session.save()`: it updates all session fields in a single statement. -/
inductive DbWrite where
  | saveRow (st : Status) (traceId : Option String) (report : Option String) (completedAt : Bool)
  | createSummary (rec : SummaryRec)
  | createReasoning (rec : ReasoningRec)
  | saveCost (rec : CostRec)

def applyWrite (db : SessionDb) : DbWrite → SessionDb
  | .saveRow st tr rep ca => { db with row := ⟨st, tr, rep, ca⟩ }
  | .createSummary r => { db with summary := some r }
  | .createReasoning r => { db with reasoning := some r }
  | .saveCost r => { db with cost := r }

def applyWrites (ws : List DbWrite) (db : SessionDb) : SessionDb := ws.foldl applyWrite db

def fixedSearchStrategy : String := "Multi-step LLM-based research with context building"

def fixedSourceSelection : String := "AI knowledge synthesis with document context"

def fixedSynthesisApproach : String :=
  "Iterative refinement with planning, research, and report generation"

def fixedSteps : List String :=
  [("Query planning and decomposition"), ("Deep research with context"),
   ("Report generation"), ("Summary extraction")]

/-- The cost row written from `tracker.get_stats()` (the tracker is always
constructed with model `gpt-4o-mini`). -/
def costOf (inTok outTok : Nat) : CostRec :=
  ⟨inTok, outTok, inTok + outTok,
   TokenTracker.getCost ⟨("gpt-4o-mini"), inTok, outTok⟩, ("gpt-4o-mini")⟩

/-- The store writes `_execute_research` performs, in source order: the
`running` save (with the fresh trace id), then on success the `completed`
save (report + completion timestamp), the summary row, the reasoning row and
the cost update — or on failure the single `failed` save carrying the error
narrative and no completion timestamp. -/
def execWrites (trace : String) (rr : RunResult) (inTok outTok : Nat) : List DbWrite :=
  DbWrite.saveRow Status.running (some trace) none false ::
  match rr with
  | .success plan _findings report raw =>
    let parsed := parseSummaryResponse raw
    [DbWrite.saveRow Status.completed (some trace) (some report) true,
     DbWrite.createSummary ⟨parsed.1, parsed.2.1, parsed.2.2⟩,
     DbWrite.createReasoning
       ⟨plan, fixedSearchStrategy, fixedSourceSelection, fixedSynthesisApproach, fixedSteps⟩,
     DbWrite.saveCost (costOf inTok outTok)]
  | .failure msg =>
    [DbWrite.saveRow Status.failed (some trace) (some (("Research failed: ") ++ msg)) false]

/-- `_execute_research` glued to the pipeline's four LLM invocation results. -/
def executeResearch (trace : String) (r1 r2 r3 r4 : Except String String)
    (inTok outTok : Nat) : List DbWrite :=
  execWrites trace (runPipeline r1 r2 r3 r4) inTok outTok

def writeStatus : DbWrite → Option Status
  | .saveRow st _ _ _ => some st
  | _ => none

/-- The sequence of status values a session's row passes through: the creation
default `pending` followed by every status written by the run. -/
def statusTrace (trace : String) (rr : RunResult) (inTok outTok : Nat) : List Status :=
  Status.pending :: (execWrites trace rr inTok outTok).filterMap writeStatus

/-! ### `ResearchService.start_research` dispatch (services.py 90-112)

`start_research` spawns `threading.Thread(target=_execute_research).start()`
and returns.  Events: the caller spawns then returns; the worker writes
`running` then the terminal status.  `Thread.start` only orders the spawn
before every worker event; nothing orders the worker's first write against
the caller's return, so exactly three interleavings exist. -/

inductive ThreadEv where
  | spawned
  | returned
  | wRunning
  | wTerminal
deriving DecidableEq

/-- All interleavings of caller order (`spawned` before `returned`) and worker
order (`wRunning` before `wTerminal`) with the spawn before every worker
event. -/
def validSchedules : List (List ThreadEv) :=
  [[ThreadEv.spawned, ThreadEv.returned, ThreadEv.wRunning, ThreadEv.wTerminal],
   [ThreadEv.spawned, ThreadEv.wRunning, ThreadEv.returned, ThreadEv.wTerminal],
   [ThreadEv.spawned, ThreadEv.wRunning, ThreadEv.wTerminal, ThreadEv.returned]]

def validSchedule (l : List ThreadEv) : Prop := l ∈ validSchedules

/-- The session status a reader observes after a schedule's first events:
`pending` at creation, overwritten by the worker's writes. -/
def statusAfter (l : List ThreadEv) : Status :=
  l.foldl
    (fun st e =>
      match e with
      | ThreadEv.wRunning => Status.running
      | ThreadEv.wTerminal => Status.completed
      | _ => st)
    Status.pending

/-! ### Continuation (serializers.py 158-168 and views.py 117-149) -/

/-- What `ContinueResearchSerializer.validate_previous_research_id` needs of a
stored session. -/
structure ASessionRow where
  sid : Nat
  status : Status

def findA (db : List ASessionRow) (i : Nat) : Option ASessionRow :=
  db.find? (fun s => s.sid == i)

/-- `validate_previous_research_id`: missing session and non-`completed`
status each raise a `ValidationError` (modelled as `Except.error` carrying the
message); a pure check — no session is created or modified. -/
def validatePreviousResearchId (db : List ASessionRow) (i : Nat) : Except String Nat :=
  match findA db i with
  | none => Except.error ("Previous research session not found.")
  | some s =>
    if s.status ≠ Status.completed then
      Except.error ("Can only continue from a completed research session.")
    else Except.ok i

/-- A session row of the LangGraph variant (`views.py`), whose status strings
are `processing` / `completed` / `failed`. -/
structure BSession where
  sid : Nat
  userId : String
  query : String
  status : String
  parentId : Option Nat
  report : Option String
  summary : Option String
  sources : Option String
  errorMessage : Option String

def findB (db : List BSession) (i : Nat) : Option BSession :=
  db.find? (fun s => s.sid == i)

/-- The `previous_context` f-string of `continue_research`; the conditional
expression binds looser than `or`, so a falsy report yields the placeholder
even when a summary exists. -/
def bPreviousContext (p : BSession) : String :=
  ("\nPREVIOUS QUERY: ") ++ p.query ++ ("\n\nPREVIOUS FINDINGS:\n") ++
  (if strTruthy p.report then
    (match p.summary with
     | some s => if pyFalsy s then pyTakeS 3000 (p.report.getD ("")) else s
     | none => pyTakeS 3000 (p.report.getD ("")))
   else ("No previous findings")) ++
  ("\n\nSOURCES USED:\n") ++
  (match p.sources with
   | some s => if pyFalsy s then ("None") else s
   | none => ("None")) ++ ("\n")

/-- Result of `deep_research_client.run_research` (an external collaborator):
a success dict or an error dict / raised exception. -/
inductive BRunResult where
  | ok (report summary : String)
  | err (msg : String)

/-- The HTTP-level outcome of the `continue_research` view. -/
inductive BOutcome where
  | badRequest (msg : String)
  | notFound
  | created (sid : Nat)
  | serverError (msg : String)

/-- `continue_research` (views.py 117-198): reject an empty query, 404 on a
missing parent, then — with no check of the parent's status — create the
child session in state `processing` and run the client, finalising the child
as `completed` or `failed`. -/
def continueResearchB (db : List BSession) (researchId : Nat) (query : String)
    (newId : Nat) (run : BRunResult) : BOutcome × List BSession :=
  if pyFalsy query then (BOutcome.badRequest ("Query is required"), db)
  else
    match findB db researchId with
    | none => (BOutcome.notFound, db)
    | some parent =>
      let _ctx := bPreviousContext parent
      let child : BSession :=
        ⟨newId, parent.userId, query, ("processing"), some parent.sid, none, none, none, none⟩
      let db1 := db ++ [child]
      match run with
      | BRunResult.ok report summary =>
        (BOutcome.created newId,
         db1.map (fun s =>
           if s.sid == newId then
             { s with status := ("completed"), report := some report, summary := some summary }
           else s))
      | BRunResult.err m =>
        (BOutcome.serverError m,
         db1.map (fun s =>
           if s.sid == newId then { s with status := ("failed"), errorMessage := some m }
           else s))

/-! ## Theorems -/

/-! ### Shared helper lemmas -/

theorem toList_mk (l : List Char) : (String.mk l).toList = l := rfl

theorem toList_append (s t : String) : (s ++ t).toList = s.toList ++ t.toList := rfl

theorem data_append (s t : String) : (s ++ t).data = s.data ++ t.data := rfl

/-- Weaken an occurrence of `c ++ s` to an occurrence of `s`. -/
theorem containsStr_weaken_left {big : String} {c s : String}
    (h : containsStr big (c ++ s)) : containsStr big s := by
  obtain ⟨x, y, hxy⟩ := h
  refine ⟨x ++ c.toList, y, ?_⟩
  simp only [String.toList, data_append, List.append_assoc] at hxy ⊢
  exact hxy

/-- Weaken an occurrence of `s ++ c` to an occurrence of `s`. -/
theorem containsStr_weaken_right {big : String} {s c : String}
    (h : containsStr big (s ++ c)) : containsStr big s := by
  obtain ⟨x, y, hxy⟩ := h
  refine ⟨x, c.toList ++ y, ?_⟩
  simp only [String.toList, data_append, List.append_assoc] at hxy ⊢
  exact hxy

/-- Every part of a `"\n".join` occurs inside the joined string. -/
theorem joinNl_containsStr (parts : List String) (s : String) (h : s ∈ parts) :
    containsStr (joinNl parts) s := by
  induction parts with
  | nil => cases h
  | cons a rest ih =>
    cases rest with
    | nil =>
      cases h with
      | head => exact ⟨[], [], by simp [joinNl]⟩
      | tail _ h2 => cases h2
    | cons b t =>
      cases h with
      | head =>
        refine ⟨[], (("\n") ++ joinNl (b :: t)).toList, ?_⟩
        simp [joinNl, String.toList, data_append, List.append_assoc]
      | tail _ h2 =>
        obtain ⟨x, y, hxy⟩ := ih h2
        refine ⟨(a ++ ("\n")).toList ++ x, y, ?_⟩
        simp only [String.toList, data_append, List.append_assoc] at hxy ⊢
        simp [joinNl, String.toList, data_append, List.append_assoc, hxy]

/-! ### Claim C1 -/

/-- Claim C1 (counterexample): on the input `"no labels here"` no label
matches, so `_parse_summary_response` returns the initializers
`("", [], [])` — not the fallback triple with summary `"no labels here"`
that the claim promises. -/
theorem claim_C1_counterexample :
    parseSummaryResponse ("no labels here") = (("") , ([] : List Json), ([] : List Json)) ∧
    (("") : String) ≠ ("no labels here") := by
  constructor
  · rfl
  · intro h
    exact absurd (congrArg String.length h) (by decide)

/-- Claim C1 (amended): the parser is total, and the exact fallback triple
`(first 500 characters, ["Research completed successfully"],
["AI-synthesized research"])` is produced exactly when a matched
`KEY_FINDINGS`/`SOURCES` section fails JSON decoding; a merely missing label
leaves the initializers (`""` and `[]`) in place instead. -/
theorem claim_C1_fallback_exact (r : String)
    (h : jsonFailsAt (findingsGroup r.toList) = true ∨
         jsonFailsAt (sourcesGroup r.toList) = true) :
    parseSummaryResponse r = fallbackSummary r := by
  simp only [String.toList] at h
  unfold parseSummaryResponse
  cases hf : findingsGroup r.data with
  | none =>
    cases hs : sourcesGroup r.data with
    | none => rw [hf, hs] at h; simp [jsonFailsAt] at h
    | some g2 =>
      have h2 : jsonLoads g2 = none := by
        rw [hf, hs] at h
        simpa [jsonFailsAt, Option.isNone_iff_eq_none] using h
      simp [hf, hs, h2]
  | some g1 =>
    cases hl : jsonLoads g1 with
    | none => simp [hf, hl]
    | some v1 =>
      cases hs : sourcesGroup r.data with
      | none => rw [hf, hs] at h; simp [jsonFailsAt, hl] at h
      | some g2 =>
        have h2 : jsonLoads g2 = none := by
          rw [hf, hs] at h
          simpa [jsonFailsAt, hl, Option.isNone_iff_eq_none] using h
        simp [hf, hl, hs, h2]

/-- Claim C1 (witness): `"KEY_FINDINGS: [nope]"` matches the findings section
with invalid JSON, and the parser returns exactly the fallback triple. -/
theorem claim_C1_witness :
    jsonFailsAt (findingsGroup (("KEY_FINDINGS: [nope]") : String).toList) = true ∧
    parseSummaryResponse ("KEY_FINDINGS: [nope]") = fallbackSummary ("KEY_FINDINGS: [nope]") :=
  ⟨by rfl, claim_C1_fallback_exact ("KEY_FINDINGS: [nope]") (Or.inl (by rfl))⟩

/-! ### Claim C9 -/

/-- Claim C9: round-trip on the expected template — the parser extracts the
stripped summary and the two decoded JSON string lists. -/
theorem claim_C9_round_trip :
    parseSummaryResponse ("SUMMARY: Foo bar.\nKEY_FINDINGS: [\"a\",\"b\"]\nSOURCES: [\"s1\"]") =
      (("Foo bar."), [jstrOf ("a"), jstrOf ("b")], [jstrOf ("s1")]) := by
  rfl

/-! ### Claim C10 -/

/-- Claim C10 (counterexample): with `KEY_FINDINGS: [1, 2]` decoding fine but
`SOURCES: [oops]` matching with malformed JSON, the decoded findings are NOT
returned verbatim — the fallback replaces them — refuting the claim's
unconditional "returns the decoded elements verbatim". -/
theorem claim_C10_counterexample :
    (parseSummaryResponse ("KEY_FINDINGS: [1, 2]\nSOURCES: [oops]")).2.1 =
      [jstrOf ("Research completed successfully")] ∧
    [jstrOf ("Research completed successfully")] ≠
      [Json.jnum (("1") : String).toList, Json.jnum (("2") : String).toList] := by
  constructor
  · rfl
  · intro h
    exact absurd (congrArg List.length h) (by decide)

/-- Claim C10 (amended): no element-type validation is performed — whenever
the `KEY_FINDINGS` section matches and decodes as a JSON array, and the
`SOURCES` section does not fail decoding, the decoded elements are returned
verbatim (non-strings included). -/
theorem claim_C10_verbatim_when_clean (r : String) (g : List Char) (xs : List Json)
    (h1 : findingsGroup r.toList = some g)
    (h2 : jsonLoads g = some (Json.jarr xs))
    (h3 : jsonFailsAt (sourcesGroup r.toList) = false) :
    (parseSummaryResponse r).2.1 = xs := by
  simp only [String.toList] at h1 h3
  unfold parseSummaryResponse
  cases hs : sourcesGroup r.data with
  | none => simp [h1, h2, hs, jarrElems]
  | some g2 =>
    cases hl : jsonLoads g2 with
    | none => rw [hs] at h3; simp [jsonFailsAt, hl] at h3
    | some v2 => simp [h1, h2, hs, hl, jarrElems]

/-- Claim C10 (witness): `"KEY_FINDINGS: [1, 2]"` yields the two decoded JSON
numbers verbatim, which are not strings. -/
theorem claim_C10_witness :
    (parseSummaryResponse ("KEY_FINDINGS: [1, 2]")).2.1 =
      [Json.jnum (("1") : String).toList, Json.jnum (("2") : String).toList] ∧
    (Json.jnum (("1") : String).toList).isStr = false :=
  ⟨claim_C10_verbatim_when_clean ("KEY_FINDINGS: [1, 2]") (("[1, 2]") : String).toList
      [Json.jnum (("1") : String).toList, Json.jnum (("2") : String).toList]
      (by rfl) (by rfl) (by rfl),
   by rfl⟩

/-! ### Claim C8 -/

theorem string_eq_of_data (a b : String) (h : a.data = b.data) : a = b := by
  cases a
  cases b
  exact congrArg String.mk h

theorem applyTokEvents_model (enc : String → Nat) (evs : List TokEvent) (t : TokenTracker) :
    (applyTokEvents enc t evs).model = t.model := by
  induction evs generalizing t with
  | nil => rfl
  | cons e rest ih =>
    cases e with
    | input s => exact ih _
    | output s => exact ih _

theorem pricingFor_eq_spec (m : String) : pricingFor m = pricingSpec m := by
  by_cases h1 : m = ("gpt-4o-mini")
  · simp [pricingFor, pricingSpec, PRICING, List.lookup, h1]
  · by_cases h2 : m = ("gpt-4o")
    · simp [pricingFor, pricingSpec, PRICING, List.lookup, h1, h2]
    · by_cases h3 : m = ("gpt-4")
      · simp [pricingFor, pricingSpec, PRICING, List.lookup, h1, h2, h3]
      · have b1 : (m == ("gpt-4o-mini")) = false := beq_eq_false_iff_ne.mpr h1
        have b2 : (m == ("gpt-4o")) = false := beq_eq_false_iff_ne.mpr h2
        have b3 : (m == ("gpt-4")) = false := beq_eq_false_iff_ne.mpr h3
        simp [pricingFor, pricingSpec, PRICING, List.lookup, b1, b2, b3, h1, h2, h3]

theorem pricingSpec_nonneg (m : String) :
    0 ≤ (pricingSpec m).1 ∧ 0 ≤ (pricingSpec m).2 := by
  unfold pricingSpec
  split_ifs <;> constructor <;> norm_num

/-- Claim C8: for every model name and every sequence of recorded texts,
`get_cost` is exactly `(inputTokens/1e6) * price.input +
(outputTokens/1e6) * price.output` with the named model's pricing row
(falling back to the `gpt-4o-mini` row for an unknown model, per
`pricingSpec`), it never fails, and the result is nonnegative. -/
theorem claim_C8_cost_formula (m : String) (enc : String → Nat) (evs : List TokEvent) :
    TokenTracker.getCost (applyTokEvents enc (mkTracker m) evs) =
      ((applyTokEvents enc (mkTracker m) evs).inputTokens : ℚ) / 1000000 * (pricingSpec m).1 +
        ((applyTokEvents enc (mkTracker m) evs).outputTokens : ℚ) / 1000000 * (pricingSpec m).2 ∧
    0 ≤ TokenTracker.getCost (applyTokEvents enc (mkTracker m) evs) := by
  have hm : (applyTokEvents enc (mkTracker m) evs).model = m := applyTokEvents_model enc evs _
  have hform :
      TokenTracker.getCost (applyTokEvents enc (mkTracker m) evs) =
        ((applyTokEvents enc (mkTracker m) evs).inputTokens : ℚ) / 1000000 * (pricingSpec m).1 +
          ((applyTokEvents enc (mkTracker m) evs).outputTokens : ℚ) / 1000000 *
            (pricingSpec m).2 := by
    unfold TokenTracker.getCost
    rw [hm, pricingFor_eq_spec]
  refine ⟨hform, ?_⟩
  rw [hform]
  have hp := pricingSpec_nonneg m
  have hin : (0 : ℚ) ≤ ((applyTokEvents enc (mkTracker m) evs).inputTokens : ℚ) / 1000000 := by
    positivity
  have hout : (0 : ℚ) ≤ ((applyTokEvents enc (mkTracker m) evs).outputTokens : ℚ) / 1000000 := by
    positivity
  exact add_nonneg (mul_nonneg hin hp.1) (mul_nonneg hout hp.2)

/-! ### Claim C2 -/

/-- Claim C2: whatever the pipeline outcome, the status values a session's
row passes through are exactly `pending, running, completed` or
`pending, running, failed`: stages in order, no skipping, and no return to
`pending` or `running` after the terminal write. -/
theorem claim_C2_status_monotonic (trace : String) (rr : RunResult) (inTok outTok : Nat) :
    statusTrace trace rr inTok outTok =
        [Status.pending, Status.running, Status.completed] ∨
      statusTrace trace rr inTok outTok =
        [Status.pending, Status.running, Status.failed] := by
  cases rr with
  | success plan findings report raw => exact Or.inl rfl
  | failure msg => exact Or.inr rfl

/-! ### Claim C3 -/

/-- Claim C3 (counterexample): on a successful run, the intermediate state
right after the `completed` save (write prefix of length 2) already shows
`status = completed` while the summary row does not exist yet and the cost
row still holds its creation-time zeros — a reader can observe `completed`
with the payload only partially written. -/
theorem claim_C3_counterexample :
    (applyWrites
        ((execWrites ("t") (RunResult.success ("plan") ("find") ("rpt") ("raw")) 10 20).take 2)
        newSessionDb).row.status = Status.completed ∧
    (applyWrites
        ((execWrites ("t") (RunResult.success ("plan") ("find") ("rpt") ("raw")) 10 20).take 2)
        newSessionDb).summary = none ∧
    (applyWrites
        ((execWrites ("t") (RunResult.success ("plan") ("find") ("rpt") ("raw")) 10 20).take 2)
        newSessionDb).cost = zeroCost ∧
    (applyWrites
        ((execWrites ("t") (RunResult.success ("plan") ("find") ("rpt") ("raw")) 10 20))
        newSessionDb).summary.isSome = true :=
  ⟨rfl, rfl, rfl, rfl⟩

/-- Claim C3 (amended): only the report and the completion timestamp are
written atomically with `status = completed` (they ride the same
`session.save()`): in every reachable intermediate state of a run, a session
observed as `completed` does carry its final report and completion timestamp;
the summary and cost rows are written by later separate writes. -/
theorem claim_C3_report_atomic_with_completed (trace : String) (rr : RunResult)
    (inTok outTok : Nat) (k : Nat)
    (h : (applyWrites ((execWrites trace rr inTok outTok).take k) newSessionDb).row.status =
      Status.completed) :
    ∃ plan findings report raw, rr = RunResult.success plan findings report raw ∧
      (applyWrites ((execWrites trace rr inTok outTok).take k) newSessionDb).row.finalReport =
        some report ∧
      (applyWrites ((execWrites trace rr inTok outTok).take k) newSessionDb).row.completedAt =
        true := by
  cases rr with
  | failure msg =>
    exfalso
    rcases k with _ | _ | k <;>
      simp [execWrites, applyWrites, applyWrite, newSessionDb, List.take_nil] at h
  | success plan findings report raw =>
    rcases k with _ | _ | _ | _ | _ | k
    · exact absurd h (by simp [execWrites, applyWrites, newSessionDb])
    · exact absurd h (by simp [execWrites, applyWrites, applyWrite, newSessionDb])
    · exact ⟨plan, findings, report, raw, rfl, rfl, rfl⟩
    · exact ⟨plan, findings, report, raw, rfl, rfl, rfl⟩
    · exact ⟨plan, findings, report, raw, rfl, rfl, rfl⟩
    · refine ⟨plan, findings, report, raw, rfl, ?_, ?_⟩ <;>
        simp [execWrites, applyWrites, applyWrite, List.take_nil]

/-- Claim C3 (witness): the amended theorem applied at the intermediate state
of write-prefix length 2 of a concrete successful run. -/
theorem claim_C3_witness :
    ∃ plan findings report raw,
      RunResult.success ("plan") ("find") ("rpt") ("raw") =
        RunResult.success plan findings report raw ∧
      (applyWrites
          ((execWrites ("t") (RunResult.success ("plan") ("find") ("rpt") ("raw")) 10 20).take 2)
          newSessionDb).row.finalReport = some report ∧
      (applyWrites
          ((execWrites ("t") (RunResult.success ("plan") ("find") ("rpt") ("raw")) 10 20).take 2)
          newSessionDb).row.completedAt = true :=
  claim_C3_report_atomic_with_completed ("t")
    (RunResult.success ("plan") ("find") ("rpt") ("raw")) 10 20 2 rfl

/-! ### Claim C7 -/

/-- Claim C7: when any pipeline stage raises, the run performs exactly the
`running` save and then one `failed` save — the session ends `failed`, the
error narrative `"Research failed: <msg>"` is stored in the report field,
the completion timestamp stays unset, no summary row is created, and no
retry (no further pipeline writes) occurs. -/
theorem claim_C7_failure_semantics (trace : String) (inTok outTok : Nat)
    (r1 r2 r3 r4 : Except String String) (msg : String)
    (h : runPipeline r1 r2 r3 r4 = RunResult.failure msg) :
    executeResearch trace r1 r2 r3 r4 inTok outTok =
      [DbWrite.saveRow Status.running (some trace) none false,
       DbWrite.saveRow Status.failed (some trace) (some (("Research failed: ") ++ msg)) false] ∧
    (applyWrites (executeResearch trace r1 r2 r3 r4 inTok outTok) newSessionDb).row.status =
      Status.failed ∧
    (applyWrites (executeResearch trace r1 r2 r3 r4 inTok outTok) newSessionDb).row.finalReport =
      some (("Research failed: ") ++ msg) ∧
    (applyWrites (executeResearch trace r1 r2 r3 r4 inTok outTok) newSessionDb).row.completedAt =
      false ∧
    (applyWrites (executeResearch trace r1 r2 r3 r4 inTok outTok) newSessionDb).summary = none := by
  unfold executeResearch
  rw [h]
  exact ⟨rfl, rfl, rfl, rfl, rfl⟩

/-- Claim C7 (witness): a concrete run whose first stage raises `"boom"`. -/
theorem claim_C7_witness :
    executeResearch ("t") (Except.error ("boom")) (Except.ok ("a")) (Except.ok ("b"))
        (Except.ok ("c")) 3 4 =
      [DbWrite.saveRow Status.running (some ("t")) none false,
       DbWrite.saveRow Status.failed (some ("t"))
         (some (("Research failed: ") ++ ("boom"))) false] ∧
    (applyWrites
        (executeResearch ("t") (Except.error ("boom")) (Except.ok ("a")) (Except.ok ("b"))
          (Except.ok ("c")) 3 4) newSessionDb).row.status = Status.failed ∧
    (applyWrites
        (executeResearch ("t") (Except.error ("boom")) (Except.ok ("a")) (Except.ok ("b"))
          (Except.ok ("c")) 3 4) newSessionDb).row.finalReport =
      some (("Research failed: ") ++ ("boom")) ∧
    (applyWrites
        (executeResearch ("t") (Except.error ("boom")) (Except.ok ("a")) (Except.ok ("b"))
          (Except.ok ("c")) 3 4) newSessionDb).row.completedAt = false ∧
    (applyWrites
        (executeResearch ("t") (Except.error ("boom")) (Except.ok ("a")) (Except.ok ("b"))
          (Except.ok ("c")) 3 4) newSessionDb).summary = none :=
  claim_C7_failure_semantics ("t") 3 4 (Except.error ("boom")) (Except.ok ("a"))
    (Except.ok ("b")) (Except.ok ("c")) ("boom") rfl

/-! ### Claim C4 -/

/-- Claim C4 (counterexample): the schedule that runs the worker only after
`start_research` has returned is a valid interleaving, and at the observation
point right after the return the session still reads `pending` — the
running-state write is NOT ordered before the triggering call's return. -/
theorem claim_C4_counterexample :
    validSchedule
      [ThreadEv.spawned, ThreadEv.returned, ThreadEv.wRunning, ThreadEv.wTerminal] ∧
    ([ThreadEv.spawned, ThreadEv.returned, ThreadEv.wRunning, ThreadEv.wTerminal].take 2) =
      [ThreadEv.spawned, ThreadEv.returned] ∧
    statusAfter
        ([ThreadEv.spawned, ThreadEv.returned, ThreadEv.wRunning, ThreadEv.wTerminal].take 2) =
      Status.pending :=
  ⟨List.Mem.head _, rfl, rfl⟩

/-- Claim C4 (amended): `thread.start()` orders the spawn before the worker's
writes and the worker writes `running` before the terminal status, but
nothing orders the `running` write before `start_research` returns — so in
every valid interleaving a session observed in a terminal state has had its
`running` write, while a reader may still observe `pending` after the call
returned. -/
theorem claim_C4_running_precedes_terminal (l : List ThreadEv) (h : validSchedule l) (k : Nat)
    (h2 : statusAfter (l.take k) = Status.completed) :
    ThreadEv.wRunning ∈ l.take k := by
  simp only [validSchedule, validSchedules, List.mem_cons, List.not_mem_nil, or_false] at h
  rcases h with rfl | rfl | rfl <;>
    rcases k with _ | _ | _ | _ | k <;>
      simp_all [statusAfter, List.take_nil]

/-- Claim C4 (witness): the amended theorem at the schedule whose worker
finishes before the return, observed after three events. -/
theorem claim_C4_witness :
    ThreadEv.wRunning ∈
      ([ThreadEv.spawned, ThreadEv.wRunning, ThreadEv.wTerminal, ThreadEv.returned].take 3) :=
  claim_C4_running_precedes_terminal
    [ThreadEv.spawned, ThreadEv.wRunning, ThreadEv.wTerminal, ThreadEv.returned]
    (List.Mem.tail _ (List.Mem.tail _ (List.Mem.head _))) 3 rfl

/-! ### Claim C6 -/

/-- Claim C6 (counterexample): the LangGraph-variant `continue_research` view
run against a parent whose status is `failed` raises no validation error —
it answers `201 Created` and the store afterwards holds a new child session
pointing at the failed parent. -/
theorem claim_C6_counterexample :
    (continueResearchB
        [⟨0, ("u"), ("original query"), ("failed"), none, some ("rep"), none, none, none⟩]
        0 ("deeper question") 1 (BRunResult.ok ("r2") ("s2"))).1 = BOutcome.created 1 ∧
    (continueResearchB
        [⟨0, ("u"), ("original query"), ("failed"), none, some ("rep"), none, none, none⟩]
        0 ("deeper question") 1 (BRunResult.ok ("r2") ("s2"))).2.length = 2 ∧
    (continueResearchB
        [⟨0, ("u"), ("original query"), ("failed"), none, some ("rep"), none, none, none⟩]
        0 ("deeper question") 1 (BRunResult.ok ("r2") ("s2"))).2.map BSession.parentId =
      [none, some 0] :=
  ⟨rfl, rfl, rfl⟩

/-- Claim C6 (amended): the serializer-validated flow does enforce the
precondition — `validate_previous_research_id` on any stored parent whose
status is not `completed` raises the ValidationError before any session is
created (it is a pure check); the LangGraph-variant view, however, creates
the child without checking the parent's status. -/
theorem claim_C6_serializer_rejects (db : List ASessionRow) (i : Nat) (s : ASessionRow)
    (h1 : findA db i = some s) (h2 : s.status ≠ Status.completed) :
    validatePreviousResearchId db i =
      Except.error ("Can only continue from a completed research session.") := by
  unfold validatePreviousResearchId
  rw [h1]
  simp [h2]

/-- Claim C6 (witness): the serializer rejection at a stored `failed` parent. -/
theorem claim_C6_witness :
    validatePreviousResearchId [⟨0, Status.failed⟩] 0 =
      Except.error ("Can only continue from a completed research session.") :=
  claim_C6_serializer_rejects [⟨0, Status.failed⟩] 0 ⟨0, Status.failed⟩ rfl (by decide)

/-! ### Claim C5 -/

set_option maxRecDepth 2048

theorem str_append_assoc (a b c : String) : (a ++ b) ++ c = a ++ (b ++ c) :=
  string_eq_of_data _ _ (by simp [data_append, List.append_assoc])

/-- Claim C5 (counterexample): for a parent with neither summary nor report
the function succeeds but emits NO "no previous findings" placeholder — the
output is just the markers, the query line and the build-upon instruction,
and contains no occurrence of the word `findings` in any casing. -/
theorem claim_C5_counterexample :
    buildParentContext ⟨("q"), none, none⟩ =
      ("=== PREVIOUS RESEARCH CONTEXT ===\nPrevious Query: q\n\n=== END PREVIOUS CONTEXT ===\n\nBUILD UPON this previous research. Do NOT repeat what was already covered.") ∧
    hasSub ("findings") (buildParentContext ⟨("q"), none, none⟩) = false ∧
    hasSub ("Findings") (buildParentContext ⟨("q"), none, none⟩) = false ∧
    hasSub ("FINDINGS") (buildParentContext ⟨("q"), none, none⟩) = false :=
  ⟨rfl, rfl, rfl, rfl⟩

/-- Claim C5 (amended): for every parent the block carries the begin/end
markers, the build-upon instruction and the parent's query; the summary text
is embedded whenever a summary exists; the first 2000 characters of the
report are embedded whenever the report is nonempty (also alongside a
summary, not only as a fallback); with neither summary nor report the
function still succeeds, returning just markers + query + instruction with
no placeholder; and the embedded excerpt of a report of length at least 2000
has length exactly 2000. -/
theorem claim_C5_parent_context (p : ParentSession) :
    containsStr (buildParentContext p) (("Previous Query: ") ++ p.query) ∧
    containsStr (buildParentContext p) ("=== PREVIOUS RESEARCH CONTEXT ===") ∧
    containsStr (buildParentContext p) ("=== END PREVIOUS CONTEXT ===") ∧
    containsStr (buildParentContext p)
      ("BUILD UPON this previous research. Do NOT repeat what was already covered.") ∧
    (∀ sm, p.summary = some sm → containsStr (buildParentContext p) sm.summaryText) ∧
    (∀ r, p.finalReport = some r → pyFalsy r = false →
      containsStr (buildParentContext p) (("Previous Report Excerpt:\n") ++ pyTakeS 2000 r) ∧
      (2000 ≤ r.toList.length → (pyTakeS 2000 r).toList.length = 2000)) ∧
    (p.summary = none → p.finalReport = none →
      buildParentContext p =
        ("=== PREVIOUS RESEARCH CONTEXT ===\nPrevious Query: ") ++ p.query ++
          ("\n\n=== END PREVIOUS CONTEXT ===\n\nBUILD UPON this previous research. Do NOT repeat what was already covered.")) := by
  obtain ⟨q, osum, orep⟩ := p
  have hend : (("\n=== END PREVIOUS CONTEXT ===\n") : String) =
      ("\n") ++ (("=== END PREVIOUS CONTEXT ===") ++ ("\n")) := rfl
  have hrepx : (("\nPrevious Report Excerpt:\n") : String) =
      ("\n") ++ ("Previous Report Excerpt:\n") := rfl
  have hlen : ∀ r : String, 2000 ≤ r.toList.length → (pyTakeS 2000 r).toList.length = 2000 := by
    intro r hr
    simp only [pyTakeS, String.toList, List.length_take]
    exact Nat.min_eq_left hr
  cases osum with
  | none =>
    cases orep with
    | none =>
      refine ⟨?_, ?_, ?_, ?_, ?_, ?_, ?_⟩
      · exact joinNl_containsStr _ _ (by simp [buildParentContext])
      · exact joinNl_containsStr _ _ (by simp [buildParentContext])
      · have hc : containsStr (buildParentContext ⟨q, none, none⟩)
            (("\n=== END PREVIOUS CONTEXT ===\n")) :=
          joinNl_containsStr _ _ (by simp [buildParentContext])
        rw [hend] at hc
        exact containsStr_weaken_right (containsStr_weaken_left hc)
      · exact joinNl_containsStr _ _ (by simp [buildParentContext])
      · intro sm hsm; cases hsm
      · intro r h0; cases h0
      · intro _ _
        apply string_eq_of_data
        have e1 : (("=== PREVIOUS RESEARCH CONTEXT ===\nPrevious Query: ") : String).data =
            (("=== PREVIOUS RESEARCH CONTEXT ===") : String).data ++
              ((("\n") : String).data ++ (("Previous Query: ") : String).data) := rfl
        have e2 :
            (("\n\n=== END PREVIOUS CONTEXT ===\n\nBUILD UPON this previous research. Do NOT repeat what was already covered.") : String).data =
            (("\n") : String).data ++
              ((("\n=== END PREVIOUS CONTEXT ===\n") : String).data ++
                ((("\n") : String).data ++
                  (("BUILD UPON this previous research. Do NOT repeat what was already covered.") : String).data)) := rfl
        simp [buildParentContext, joinNl, data_append, e1, e2, List.append_assoc]
    | some r =>
      by_cases hr : pyFalsy r = true
      · refine ⟨?_, ?_, ?_, ?_, ?_, ?_, ?_⟩
        · exact joinNl_containsStr _ _ (by simp [buildParentContext, hr])
        · exact joinNl_containsStr _ _ (by simp [buildParentContext, hr])
        · have hc : containsStr (buildParentContext ⟨q, none, some r⟩)
              (("\n=== END PREVIOUS CONTEXT ===\n")) :=
            joinNl_containsStr _ _ (by simp [buildParentContext, hr])
          rw [hend] at hc
          exact containsStr_weaken_right (containsStr_weaken_left hc)
        · exact joinNl_containsStr _ _ (by simp [buildParentContext, hr])
        · intro sm hsm; cases hsm
        · intro r0 h0 hf0
          injection h0 with h
          cases h
          rw [hr] at hf0
          exact Bool.noConfusion hf0
        · intro _ h0; cases h0
      · rw [Bool.not_eq_true] at hr
        refine ⟨?_, ?_, ?_, ?_, ?_, ?_, ?_⟩
        · exact joinNl_containsStr _ _ (by simp [buildParentContext, hr])
        · exact joinNl_containsStr _ _ (by simp [buildParentContext, hr])
        · have hc : containsStr (buildParentContext ⟨q, none, some r⟩)
              (("\n=== END PREVIOUS CONTEXT ===\n")) :=
            joinNl_containsStr _ _ (by simp [buildParentContext, hr])
          rw [hend] at hc
          exact containsStr_weaken_right (containsStr_weaken_left hc)
        · exact joinNl_containsStr _ _ (by simp [buildParentContext, hr])
        · intro sm hsm; cases hsm
        · intro r0 h0 _
          injection h0 with h
          cases h
          have hc : containsStr (buildParentContext ⟨q, none, some r⟩)
              (("\nPrevious Report Excerpt:\n") ++ pyTakeS 2000 r) :=
            joinNl_containsStr _ _ (by simp [buildParentContext, hr])
          rw [hrepx, str_append_assoc] at hc
          exact ⟨containsStr_weaken_left hc, hlen r⟩
        · intro _ h0; cases h0
  | some sm0 =>
    cases orep with
    | none =>
      refine ⟨?_, ?_, ?_, ?_, ?_, ?_, ?_⟩
      · exact joinNl_containsStr _ _ (by simp [buildParentContext])
      · exact joinNl_containsStr _ _ (by simp [buildParentContext])
      · have hc : containsStr (buildParentContext ⟨q, some sm0, none⟩)
            (("\n=== END PREVIOUS CONTEXT ===\n")) :=
          joinNl_containsStr _ _ (by simp [buildParentContext])
        rw [hend] at hc
        exact containsStr_weaken_right (containsStr_weaken_left hc)
      · exact joinNl_containsStr _ _ (by simp [buildParentContext])
      · intro sm hsm
        injection hsm with h
        cases h
        have hc : containsStr (buildParentContext ⟨q, some sm0, none⟩)
            (("\nPrevious Summary:\n") ++ sm0.summaryText) :=
          joinNl_containsStr _ _ (by simp [buildParentContext])
        exact containsStr_weaken_left hc
      · intro r h0; cases h0
      · intro h0; cases h0
    | some r =>
      by_cases hr : pyFalsy r = true
      · refine ⟨?_, ?_, ?_, ?_, ?_, ?_, ?_⟩
        · exact joinNl_containsStr _ _ (by simp [buildParentContext, hr])
        · exact joinNl_containsStr _ _ (by simp [buildParentContext, hr])
        · have hc : containsStr (buildParentContext ⟨q, some sm0, some r⟩)
              (("\n=== END PREVIOUS CONTEXT ===\n")) :=
            joinNl_containsStr _ _ (by simp [buildParentContext, hr])
          rw [hend] at hc
          exact containsStr_weaken_right (containsStr_weaken_left hc)
        · exact joinNl_containsStr _ _ (by simp [buildParentContext, hr])
        · intro sm hsm
          injection hsm with h
          cases h
          have hc : containsStr (buildParentContext ⟨q, some sm0, some r⟩)
              (("\nPrevious Summary:\n") ++ sm0.summaryText) :=
            joinNl_containsStr _ _ (by simp [buildParentContext, hr])
          exact containsStr_weaken_left hc
        · intro r0 h0 hf0
          injection h0 with h
          cases h
          rw [hr] at hf0
          exact Bool.noConfusion hf0
        · intro h0; cases h0
      · rw [Bool.not_eq_true] at hr
        refine ⟨?_, ?_, ?_, ?_, ?_, ?_, ?_⟩
        · exact joinNl_containsStr _ _ (by simp [buildParentContext, hr])
        · exact joinNl_containsStr _ _ (by simp [buildParentContext, hr])
        · have hc : containsStr (buildParentContext ⟨q, some sm0, some r⟩)
              (("\n=== END PREVIOUS CONTEXT ===\n")) :=
            joinNl_containsStr _ _ (by simp [buildParentContext, hr])
          rw [hend] at hc
          exact containsStr_weaken_right (containsStr_weaken_left hc)
        · exact joinNl_containsStr _ _ (by simp [buildParentContext, hr])
        · intro sm hsm
          injection hsm with h
          cases h
          have hc : containsStr (buildParentContext ⟨q, some sm0, some r⟩)
              (("\nPrevious Summary:\n") ++ sm0.summaryText) :=
            joinNl_containsStr _ _ (by simp [buildParentContext, hr])
          exact containsStr_weaken_left hc
        · intro r0 h0 _
          injection h0 with h
          cases h
          have hc : containsStr (buildParentContext ⟨q, some sm0, some r⟩)
              (("\nPrevious Report Excerpt:\n") ++ pyTakeS 2000 r) :=
            joinNl_containsStr _ _ (by simp [buildParentContext, hr])
          rw [hrepx, str_append_assoc] at hc
          exact ⟨containsStr_weaken_left hc, hlen r⟩
        · intro h0; cases h0

/-- Claim C5 (witness): a parent holding a 5000-character report and no
summary embeds a report excerpt of exactly 2000 characters. -/
theorem claim_C5_witness :
    containsStr
      (buildParentContext ⟨("pq"), none, some (String.mk (List.replicate 5000 ('X')))⟩)
      (("Previous Report Excerpt:\n") ++ pyTakeS 2000 (String.mk (List.replicate 5000 ('X')))) ∧
    (pyTakeS 2000 (String.mk (List.replicate 5000 ('X')))).toList.length = 2000 := by
  have h :=
    (claim_C5_parent_context
        ⟨("pq"), none, some (String.mk (List.replicate 5000 ('X')))⟩).2.2.2.2.2.1
      (String.mk (List.replicate 5000 ('X'))) rfl (by rfl)
  refine ⟨h.1, h.2 ?_⟩
  rw [toList_mk, List.length_replicate]
  norm_num

end DeepResearch
